import Mathlib

/-!
Verification of the runwasi containerd shim core against its
natural-language specification.

The development shallowly embeds the relevant parts of the source tree:

* `crates/containerd-shim-wasm/src/sandbox/shim/instance_data.rs`
  (`InstanceData` and its guarded lifecycle methods),
* the `TaskState` transition table (the file `task_state.rs` is not part
  of the source snapshot; it is modelled from the specification, §4.7),
* `crates/containerd-shim-wasm/src/sandbox/sync.rs` (`WaitableCell`),
* `crates/containerd-shim-wasm/src/sandbox/utils.rs` (`WithTimeout`),
* `crates/containerd-shim-wasm/src/sys/unix/container/instance.rs`
  (`Instance::start` exit-code plumbing),
* `crates/containerd-shim-wasm/src/sys/unix/container/executor.rs`
  (the Linux-vs-Wasm dispatch),
* `crates/containerd-shim-wasm/src/sandbox/shim/local.rs`
  (the `Local` task service RPCs),
* `crates/containerd-shim-hyperlight/src/containerd/client.rs`
  (`Client::load_modules`).

Rust `Result<T, E>` is embedded as `Except E T`; a `tokio::sync::OnceCell`
holding a `u32` as `Option Nat`; timestamps (`DateTime<Utc>`) as opaque
`Nat` instants.  Fallible collaborators (the underlying `Instance`, the
containerd daemon, the event publisher) enter as explicit parameters
holding their outcome, so every embedded operation is a pure function.
-/

deriving instance DecidableEq for Except

namespace Runwasi

/-- Error kinds of `sandbox/error.rs` (`enum Error`), reduced to their
kind: the payloads are strings that no claim depends on. -/
inductive ErrorKind where
  | Oci
  | Stdio
  | Others
  | Shim
  | NotFound
  | AlreadyExists
  | InvalidArgument
  | AnyErr
  | FailedPrecondition
  | Json
  | Errno
  | Libcontainer
  | Containerd
  deriving DecidableEq, Repr

/-- Task lifecycle states (spec §4.7 / `TaskState` in `task_state.rs`). -/
inductive TaskState where
  | Created
  | Starting
  | Running
  | Exited
  | Deleting
  deriving DecidableEq, Repr

/-- Modelled from the spec: the file `task_state.rs` implementing the
`TaskState` transition methods is not present in the source snapshot
(only its importer `instance_data.rs` is), so the `start` event is taken
from §4.7: `Created --start--> Starting`; any other source state is an
illegal event failing with `FailedPrecondition`.  On success the new
state is returned; on failure the state is left unchanged by the caller. -/
def TaskState.start : TaskState → Except ErrorKind TaskState
  | .Created => .ok .Starting
  | _ => .error .FailedPrecondition

/-- Modelled from the spec: §4.7 `Starting --started--> Running`;
illegal otherwise, failing with `FailedPrecondition`. -/
def TaskState.started : TaskState → Except ErrorKind TaskState
  | .Starting => .ok .Running
  | _ => .error .FailedPrecondition

/-- Modelled from the spec: §4.7 `Starting --stop--> Exited` and
`Running --stop--> Exited`; illegal otherwise. -/
def TaskState.stop : TaskState → Except ErrorKind TaskState
  | .Starting => .ok .Exited
  | .Running => .ok .Exited
  | _ => .error .FailedPrecondition

/-- Modelled from the spec: §4.7 `Created --delete--> Deleting` and
`Exited --delete--> Deleting`; illegal otherwise. -/
def TaskState.delete : TaskState → Except ErrorKind TaskState
  | .Created => .ok .Deleting
  | .Exited => .ok .Deleting
  | _ => .error .FailedPrecondition

/-- Modelled from the spec: §4.7 `(any) --kill--> (unchanged if Running
else error)`. -/
def TaskState.kill : TaskState → Except ErrorKind TaskState
  | .Running => .ok .Running
  | _ => .error .FailedPrecondition

/-- Lifecycle events of the `TaskState` machine (the five `&mut self`
methods of `task_state.rs`). -/
inductive TaskEvent where
  | start
  | started
  | kill
  | stop
  | delete
  deriving DecidableEq, Repr

/-- Dispatch a lifecycle event to its transition method. -/
def TaskState.step (s : TaskState) : TaskEvent → Except ErrorKind TaskState
  | .start => s.start
  | .started => s.started
  | .kill => s.kill
  | .stop => s.stop
  | .delete => s.delete

/-- Legal moves of the task-state DAG of spec §4.7: the chain
`Created → Starting → Running → Exited` plus the early stop
`Starting → Exited`, `Deleting` reachable only from `Created` or
`Exited`, and the stationary `kill` on `Running`. -/
def dagEdge : TaskState → TaskState → Bool
  | .Created, .Starting => true
  | .Starting, .Running => true
  | .Starting, .Exited => true
  | .Running, .Exited => true
  | .Running, .Running => true
  | .Created, .Deleting => true
  | .Exited, .Deleting => true
  | _, _ => false

/-- The `let _ = s.event()` pattern of `instance_data.rs`: the `&mut`
transition method updates the state when the event is legal and leaves
it unchanged (reporting an error that the caller discards) otherwise. -/
def forceEvent (f : TaskState → Except ErrorKind TaskState) (s : TaskState) : TaskState :=
  match f s with
  | .ok s1 => s1
  | .error _ => s

/-- `tokio::sync::OnceCell::set`: stores the value only when the cell is
empty; a set on a full cell is a no-op on the stored value. -/
def onceSet (c : Option Nat) (v : Nat) : Option Nat :=
  match c with
  | some w => some w
  | none => some v

/-- The state of an `InstanceData` (`instance_data.rs`): the task-state
machine and the `pid` once-cell.  The wrapped `instance` and `cfg`
fields are external collaborators; the instance's answers enter the
embedded methods as parameters. -/
structure InstanceData where
  state : TaskState
  pid : Option Nat
  deriving DecidableEq, Repr

/-- A fresh `InstanceData` as built by `new_instance` / `new_base`:
state `Created`, pid unset. -/
def InstanceData.new : InstanceData :=
  { state := .Created, pid := none }

/-- `InstanceData::start` (`instance_data.rs` lines 49–66): guard with
`s.start()` (propagating its error and leaving the data unchanged);
then run the wrapped instance's `start`, whose result is `instRes`.
On `Ok(pid)` the pid once-cell is set and `s.started()` is applied; on
`Err` `s.stop()` is applied; either transition result is discarded
(`let _ = ...`).  The instance result is returned unchanged. -/
def InstanceData.start (d : InstanceData) (instRes : Except ErrorKind Nat) :
    Except ErrorKind Nat × InstanceData :=
  match d.state.start with
  | .error e => (.error e, d)
  | .ok s1 =>
    match instRes with
    | .ok pid => (.ok pid, { state := forceEvent TaskState.started s1, pid := onceSet d.pid pid })
    | .error e => (.error e, { state := forceEvent TaskState.stop s1, pid := d.pid })

/-- The task state held at the instant `self.pid.set(pid)` executes
inside `InstanceData::start`: the write lock is held, `s.start()` has
already moved the state to `Starting`, and `s.started()` has not yet
run.  `none` when the pid is never set on that run (guard failure or
instance-start error). -/
def InstanceData.stateWhenPidSet (d : InstanceData) (instRes : Except ErrorKind Nat) :
    Option TaskState :=
  match d.state.start with
  | .error _ => none
  | .ok s1 =>
    match instRes with
    | .ok _ => some s1
    | .error _ => none

/-- `InstanceData::kill` (`instance_data.rs` lines 68–73): guard with
`s.kill()`; then delegate to the wrapped instance, whose result is
`instRes`. -/
def InstanceData.kill (d : InstanceData) (instRes : Except ErrorKind Unit) :
    Except ErrorKind Unit × InstanceData :=
  match d.state.kill with
  | .error e => (.error e, d)
  | .ok s1 => (instRes, { d with state := s1 })

/-- `InstanceData::delete` (`instance_data.rs` lines 75–87): guard with
`s.delete()`; delegate to the wrapped instance; when the instance's
delete fails, apply `s.stop()` discarding its result. -/
def InstanceData.delete (d : InstanceData) (instRes : Except ErrorKind Unit) :
    Except ErrorKind Unit × InstanceData :=
  match d.state.delete with
  | .error e => (.error e, d)
  | .ok s1 =>
    match instRes with
    | .ok _ => (.ok (), { d with state := s1 })
    | .error e => (.error e, { d with state := forceEvent TaskState.stop s1 })

/-- `InstanceData::wait` (`instance_data.rs` lines 89–94): await the
wrapped instance's exit tuple `res`, then overwrite the state with
`Exited`. -/
def InstanceData.wait (d : InstanceData) (res : Nat × Nat) :
    (Nat × Nat) × InstanceData :=
  (res, { d with state := .Exited })

/-- `InstanceData::try_wait` (`instance_data.rs` lines 96–103): peek the
wrapped instance's exit tuple; when one is present, overwrite the state
with `Exited`. -/
def InstanceData.tryWait (d : InstanceData) (res : Option (Nat × Nat)) :
    Option (Nat × Nat) × InstanceData :=
  match res with
  | some r => (some r, { d with state := .Exited })
  | none => (none, d)

/-! `WaitableCell` (`sandbox/sync.rs`).  The cell's observable state is
the content of its inner `tokio::sync::OnceCell`, an `Option T`. -/

/-- `WaitableCell::set` (`sync.rs` lines 52–62): delegate to the inner
once-cell.  On an empty cell the value is stored, all waiters are woken
and `Ok(())` is returned; on a full cell the stored value is untouched
and the rejected value comes back as `Err(val)`.  The result pairs the
new cell state with the returned `Result<(), T>`. -/
def cellSet {T : Type} (c : Option T) (v : T) : Option T × Except T Unit :=
  match c with
  | none => (some v, .ok ())
  | some w => (some w, .error v)

/-- `WaitableCell::try_wait` (`sync.rs` lines 101–103): a non-blocking
peek at the inner once-cell. -/
def cellTryWait {T : Type} (c : Option T) : Option T :=
  c

/-- `WaitableCell::wait` (`sync.rs` lines 92–99): loop on
`cell.get()`, suspending on the notifier while empty.  Its value, as a
function of the cell state at resolution time: a `wait` call resolves
exactly when the state is `some v`, and then observes `v`. -/
def cellWait {T : Type} (c : Option T) : Option T :=
  c

/-- The cell state after a sequence of `set` calls, each applied to the
state the previous one left (`cellSet` threads the state, the returned
`Result` going back to the respective caller). -/
def runSets {T : Type} (c : Option T) (vs : List T) : Option T :=
  vs.foldl (fun c v => (cellSet c v).1) c

/-- `WaitableCell::wait_timeout` (`sync.rs` lines 107–113): a zero
timeout short-circuits to `try_wait`; otherwise `wait` runs under
`tokio::time::timeout`, whose outcome — the value if the cell is (or
becomes) set within the window, `None` otherwise — is `arrival` when
the cell is empty at the call. -/
def cellWaitTimeout {T : Type} (c : Option T) (timeout : Nat) (arrival : Option T) :
    Option T :=
  if timeout = 0 then cellTryWait c
  else
    match c with
    | some v => some v
    | none => arrival

/-- The order in which `tokio::select!` polls its two branches when it
runs: the macro picks the order pseudo-randomly on every evaluation, so
either order can occur. -/
inductive SelectBranch where
  | sleepFirst
  | futureFirst
  deriving DecidableEq, Repr

/-- `WithTimeout::with_timeout` (`utils.rs` lines 52–61) at duration
zero, applied to a `wait()` future over a cell in state `c`:
`tokio::select!` races `sleep(Duration::ZERO)` — ready at its very
first poll — against the wait future — ready exactly when the cell is
set.  The select resolves to the first ready branch in polling order
`branch`: polling the sleep first yields `None` regardless of the cell;
polling the future first yields the cell value when set, and otherwise
falls through to the ready sleep, yielding `None`. -/
def withTimeoutZero {T : Type} (c : Option T) (branch : SelectBranch) : Option T :=
  match branch with
  | .sleepFirst => none
  | .futureFirst => c

/-! Exit-code plumbing of `Instance::start`
(`sys/unix/container/instance.rs` lines 76–113). -/

/-- `nix::sys::wait::WaitStatus` as decoded from
`waitid(pid, WEXITED | WNOHANG)`.  The exit status and signal number
are `i32` values in the source, embedded as `Int`. -/
inductive WaitStatus where
  | exited (pid : Nat) (status : Int)
  | signaled (pid : Nat) (sig : Int) (coreDump : Bool)
  | stillAlive
  | stopped (pid : Nat) (sig : Int)
  deriving DecidableEq, Repr

/-- The `match pidfd.wait().await` arms of `Instance::start`:
`Exited(_, status)` yields the status, `Signaled(_, sig, _)` the signal
number (`sig as i32`), any other success is logged and yields `137`,
and a `waitpid` error likewise yields `137`. -/
def decodeWaitStatus : Except String WaitStatus → Int
  | .ok (.exited _ status) => status
  | .ok (.signaled _ sig _) => sig
  | .ok _ => 137
  | .error _ => 137

/-- The `status as u32` cast performed in
`exit_code.set((status as u32, Utc::now()))`. -/
def i32ToU32 (n : Int) : Nat :=
  (n % 2 ^ 32).toNat

/-- The exit-code cell after `Instance::start` and its background wait
task have finished.  Following the source: the guard
`set_guard_with(|| (137, now))` is installed first; when any of the
early steps (load state, read pid, open pidfd, `container.start()`)
fails — outcome `pre` — the function returns the error and the guard
drop fires; on success the spawned task decodes `waitRes`, sets the
cell to the decoded code (cast to `u32`) with timestamp `tExit`, and
then drops the guard, a no-op when the cell is already set.  `tGuard`
is the instant a firing guard would record. -/
def instanceStartCell (c : Option (Nat × Nat)) (pre : Except ErrorKind Nat)
    (waitRes : Except String WaitStatus) (tExit tGuard : Nat) :
    Except ErrorKind Nat × Option (Nat × Nat) :=
  match pre with
  | .error e => (.error e, (cellSet c (137, tGuard)).1)
  | .ok pid =>
      (.ok pid, (cellSet (cellSet c (i32ToU32 (decodeWaitStatus waitRes), tExit)).1 (137, tGuard)).1)

/-! Executor dispatch (`sys/unix/container/executor.rs`). -/

/-- The source of the configured entrypoint
(`RuntimeContext::entrypoint().source`): an OCI Wasm layer
(`Source::Oci(_)`) or a file from the rootfs. -/
inductive EntrypointSource where
  | oci
  | file
  deriving DecidableEq, Repr

/-- What `is_linux_container` inspects about the OCI spec: the
entrypoint source, the optional `args[0]`, and — for the `PATH`
resolution `arg0.resolve_in_path()` — the candidate files in lookup
order, each with its permission mode and the first four bytes read
from it. -/
structure EntryCtx where
  source : EntrypointSource
  arg0 : Option String
  pathCandidates : List (Nat × List Nat)
  deriving DecidableEq, Repr

/-- First four bytes `7F 45 4C 46`: the ELF magic number. -/
def isElfMagic : List Nat → Bool
  | 0x7f :: 0x45 :: 0x4c :: 0x46 :: _ => true
  | _ => false

/-- First two bytes `23 21`: a shebang. -/
def isShebang : List Nat → Bool
  | 0x23 :: 0x21 :: _ => true
  | _ => false

/-- `is_linux_container` (`executor.rs` lines 110–136): bail out when
the entrypoint source is an OCI Wasm layer; otherwise require an
`args[0]`, resolve it in `PATH` to the first candidate whose mode has
the `0o001` bit set, read its first four bytes, and accept exactly the
ELF magic or a shebang. -/
def isLinuxContainer (ctx : EntryCtx) : Except String Unit :=
  match ctx.source with
  | .oci => .error "the entry point contains wasm layers"
  | .file =>
    match ctx.arg0 with
    | none => .error "no entrypoint provided"
    | some _ =>
      match ctx.pathCandidates.find? (fun p => p.1 % 2 = 1) with
      | none => .error "entrypoint not found"
      | some p =>
        if isElfMagic p.2 || isShebang p.2 then .ok ()
        else .error "not a valid script or elf file"

/-- The memoised dispatch decision (`enum InnerExecutor`). -/
inductive InnerExecutor where
  | Wasm
  | Linux
  | CantHandle
  deriving DecidableEq, Repr

/-- `Executor::inner` (`executor.rs` lines 96–107): Linux when
`is_linux_container` succeeds, otherwise Wasm when the engine's
`can_handle` (outcome `canHandle`, run on a fresh OS thread) accepts,
otherwise CantHandle.  The decision is computed once per container
(`OnceLock::get_or_init`). -/
def innerExecutor (ctx : EntryCtx) (canHandle : Bool) : InnerExecutor :=
  if (isLinuxContainer ctx).isOk then .Linux
  else if canHandle then .Wasm
  else .CantHandle

/-- `Executor::validate` (`executor.rs` lines 43–49): reject only the
CantHandle decision. -/
def executorValidate (ctx : EntryCtx) (canHandle : Bool) : Bool :=
  match innerExecutor ctx canHandle with
  | .CantHandle => false
  | _ => true

/-- Where `Executor::exec` (`executor.rs` lines 51–72) sends the
workload: the engine's `run_wasi`, the default libcontainer (Linux)
executor, or a `CantHandle` error. -/
inductive ExecDispatch where
  | runWasi
  | linuxExec
  | cantHandleErr
  deriving DecidableEq, Repr

/-- `Executor::exec` dispatch on the memoised decision. -/
def executorExec (ctx : EntryCtx) (canHandle : Bool) : ExecDispatch :=
  match innerExecutor ctx canHandle with
  | .Wasm => .runWasi
  | .Linux => .linuxExec
  | .CantHandle => .cantHandleErr

/-! `Client::load_modules`
(`containerd-shim-hyperlight/src/containerd/client.rs` lines 144–187). -/

/-- An OCI descriptor, reduced to the fields `load_modules` reads:
media type and digest. -/
structure Descriptor where
  mediaType : String
  digest : String
  deriving DecidableEq, Repr

/-- A Wasm layer as returned by `read_original_layer`: the descriptor
it was read for plus the content bytes. -/
structure Layer where
  config : Descriptor
  layer : List Nat
  deriving DecidableEq, Repr

/-- An OCI image manifest, reduced to its config descriptor and layer
descriptors. -/
structure ImageManifest where
  configDesc : Descriptor
  layers : List Descriptor
  deriving DecidableEq, Repr

/-- The `architecture` field of the parsed image config
(`platform.architecture()`): `wasm` or anything else. -/
inductive Arch where
  | wasm
  | other (name : String)
  deriving DecidableEq, Repr

/-- A parsed platform: `load_modules` only reads the architecture. -/
structure Platform where
  architecture : Arch
  deriving DecidableEq, Repr

/-- `is_wasm_layer` (`client.rs` lines 202–210): membership of the
layer's media type in the supported list. -/
def isWasmLayer (mediaType : String) (supported : List String) : Bool :=
  supported.contains mediaType

/-- `read_original_layer` (`client.rs` lines 189–199): read the
descriptor's digest and pair the bytes with the descriptor.
`readContent` is the daemon's content store, digest to bytes. -/
def readOriginalLayer (readContent : String → Except String (List Nat))
    (config : Descriptor) : Except String Layer :=
  (readContent config.digest).map fun module => { config := config, layer := module }

/-- The layer-reading loop of `load_modules`
(`for config in configs { layers.push(self.read_original_layer(config).await?) }`):
read each matching descriptor in order, propagating the first error. -/
def readLayers (readContent : String → Except String (List Nat)) :
    List Descriptor → Except String (List Layer)
  | [] => .ok []
  | c :: cs =>
    match readOriginalLayer readContent c with
    | .error e => .error e
    | .ok l =>
      match readLayers readContent cs with
      | .error e => .error e
      | .ok ls => .ok (l :: ls)

/-- `Client::load_modules` (`client.rs` lines 144–187).  The daemon
round-trips preceding the decision enter as parameters: `container`
(the `GetContainer` call, yielding the image name), `manifestOf` (the
`GetImage` + manifest `ReadContent` + parse), `configArch` (the config
`ReadContent` + platform parse).  When the architecture is not `wasm`,
return no layers; filter the manifest layers by supported media type;
when none match, return no layers; otherwise read each matching layer
in order, propagating read errors. -/
def loadModules (container : Except String String)
    (manifestOf : String → Except String ImageManifest)
    (configArch : String → Except String Platform)
    (readContent : String → Except String (List Nat))
    (supported : List String) : Except String (List Layer × Platform) :=
  match container with
  | .error e => .error e
  | .ok image =>
    match manifestOf image with
    | .error e => .error e
    | .ok manifest =>
      match configArch manifest.configDesc.digest with
      | .error e => .error e
      | .ok platform =>
        match platform.architecture with
        | .other _ => .ok ([], platform)
        | .wasm =>
          let configs := manifest.layers.filter fun x => isWasmLayer x.mediaType supported
          if configs.isEmpty then
            .ok ([], platform)
          else
            match readLayers readContent configs with
            | .error e => .error e
            | .ok layers => .ok (layers, platform)

/-! The `Local` task service (`sandbox/shim/local.rs`).  Each RPC is
embedded as a pure function of the request, the map entry for the
requested id, and the outcomes of the external collaborators (spec
loading, the wrapped instance, the event publisher).  Alongside its
return value each RPC yields the map effect, the ordered trace of the
steps it executed, and a log of the publishes it attempted. -/

/-- ttrpc status codes produced at the RPC boundary
(`trapeze::Code` via `From<Error> for Status` in `error.rs`). -/
inductive Code where
  | unimplemented
  | invalidArgument
  | alreadyExists
  | notFound
  | failedPrecondition
  | unknown
  deriving DecidableEq, Repr

/-- The `From<Error> for trapeze::Status` mapping of `error.rs`,
reduced to codes. -/
def errorToCode : ErrorKind → Code
  | .NotFound => .notFound
  | .AlreadyExists => .alreadyExists
  | .InvalidArgument => .invalidArgument
  | .FailedPrecondition => .failedPrecondition
  | _ => .unknown

/-- `CreateTaskRequest`, reduced to the fields `task_create` reads. -/
structure CreateTaskRequest where
  id : String
  bundle : String
  checkpoint : String
  parentCheckpoint : String
  terminal : Bool
  stdin : String
  stdout : String
  stderr : String
  deriving DecidableEq, Repr

/-- The externally-determined outcomes `task_create` runs into, in
source order: `Spec::load`, `canonicalize_rootfs`, whether
`spec.root()` is present, `InstanceData::new`, the publish outcome
(discarded by the source), and `setup_prestart_hooks`. -/
structure CreateEnv where
  specLoad : Except String Unit
  canonicalize : Except String Unit
  rootSet : Bool
  instanceNew : Except ErrorKind Unit
  publishOutcome : Bool
  hooks : Except ErrorKind Unit
  deriving DecidableEq, Repr

/-- The observable steps of `task_create`, in the order the source
executes them. -/
inductive CreateStep where
  | loadSpec
  | canonicalizeRootfs
  | mkdirRootfs
  | mountRootfs
  | initInstance
  | insertMap
  | publishTaskCreate
  | runPrestartHooks
  deriving DecidableEq, Repr

/-- Everything `task_create` leaves behind: the RPC result (the pid of
a `CreateTaskResponse` on success), whether the id ended up in the
instance map, the executed step trace, and the publish log
`(topic, outcome)`. -/
structure CreateOutcome where
  result : Except Code Nat
  inserted : Bool
  trace : List CreateStep
  publishLog : List (String × Bool)
  deriving DecidableEq, Repr

/-- `Local::task_create` (`local.rs` lines 91–162).  Guards: checkpoint
unsupported, terminal unsupported, id unique.  Then, in source order:
load the spec, canonicalise its rootfs, require `spec.root()`,
`create_dir_all` (result discarded), `mount_rootfs` (a stub returning
`Ok`), `InstanceData::new`, insert into the map, publish `TaskCreate`
(result discarded), run the prestart hooks, and answer with the shim
process's own pid (`std::process::id()`). -/
def taskCreate (shimPid : Nat) (hasInstance : Bool) (req : CreateTaskRequest)
    (env : CreateEnv) : CreateOutcome :=
  if req.checkpoint ≠ "" ∨ req.parentCheckpoint ≠ "" then
    { result := .error .unimplemented, inserted := false, trace := [], publishLog := [] }
  else if req.terminal then
    { result := .error .invalidArgument, inserted := false, trace := [], publishLog := [] }
  else if hasInstance then
    { result := .error .alreadyExists, inserted := false, trace := [], publishLog := [] }
  else
    match env.specLoad with
    | .error _ =>
      { result := .error .invalidArgument, inserted := false,
        trace := [.loadSpec], publishLog := [] }
    | .ok _ =>
      match env.canonicalize with
      | .error _ =>
        { result := .error .invalidArgument, inserted := false,
          trace := [.loadSpec, .canonicalizeRootfs], publishLog := [] }
      | .ok _ =>
        if !env.rootSet then
          { result := .error .invalidArgument, inserted := false,
            trace := [.loadSpec, .canonicalizeRootfs], publishLog := [] }
        else
          match env.instanceNew with
          | .error e =>
            { result := .error (errorToCode e), inserted := false,
              trace := [.loadSpec, .canonicalizeRootfs, .mkdirRootfs, .mountRootfs,
                        .initInstance],
              publishLog := [] }
          | .ok _ =>
            match env.hooks with
            | .error e =>
              { result := .error (errorToCode e), inserted := true,
                trace := [.loadSpec, .canonicalizeRootfs, .mkdirRootfs, .mountRootfs,
                          .initInstance, .insertMap, .publishTaskCreate, .runPrestartHooks],
                publishLog := [("TaskCreate", env.publishOutcome)] }
            | .ok _ =>
              { result := .ok shimPid, inserted := true,
                trace := [.loadSpec, .canonicalizeRootfs, .mkdirRootfs, .mountRootfs,
                          .initInstance, .insertMap, .publishTaskCreate, .runPrestartHooks],
                publishLog := [("TaskCreate", env.publishOutcome)] }

/-- What `task_start` leaves behind: the RPC result (the started pid),
the updated map entry, and the publish log — `TaskStart` published by
the RPC itself, `TaskExit` by the background task it spawns after
`wait()` resolves. -/
structure StartOutcome where
  result : Except Code Nat
  data : Option InstanceData
  publishLog : List (String × Bool)
  deriving DecidableEq, Repr

/-- `Local::task_start` (`local.rs` lines 165–204).  Reject a non-empty
`exec_id` (unimplemented); look the id up (not found when absent); run
`InstanceData::start` with the wrapped instance answering
`instStartRes`; on error propagate it; on success publish `TaskStart`
(result discarded), spawn the background task that awaits `wait()` and
publishes `TaskExit` (result discarded), and answer with the pid. -/
def taskStart (execId : String) (inst : Option InstanceData)
    (instStartRes : Except ErrorKind Nat) (pubStart pubExit : Bool) : StartOutcome :=
  if execId ≠ "" then
    { result := .error .unimplemented, data := inst, publishLog := [] }
  else
    match inst with
    | none => { result := .error .notFound, data := none, publishLog := [] }
    | some d =>
      match d.start instStartRes with
      | (.error e, d1) =>
        { result := .error (errorToCode e), data := some d1, publishLog := [] }
      | (.ok pid, d1) =>
        { result := .ok pid, data := some d1,
          publishLog := [("TaskStart", pubStart), ("TaskExit", pubExit)] }

/-- `DeleteResponse`, reduced to the fields `task_delete` fills:
`exited_at` stays `None` when no exit snapshot was obtained. -/
structure DeleteResponse where
  pid : Nat
  exitStatus : Nat
  exitedAt : Option Nat
  deriving DecidableEq, Repr

/-- What `task_delete` leaves behind: the RPC result, the remaining map
entry for the id (`none` once removed), and the publish log. -/
structure DeleteOutcome where
  result : Except ErrorKind DeleteResponse
  data : Option InstanceData
  publishLog : List (String × Bool)
  deriving DecidableEq, Repr

/-- `Local::task_delete` (`local.rs` lines 216–247).  Reject a
non-empty `exec_id` (invalid argument); look the id up; run
`InstanceData::delete` with the wrapped instance answering
`instDelRes`, propagating its error; read the pid
(`unwrap_or_default`); obtain the exit snapshot with
`i.wait().with_timeout(Duration::ZERO)` — the select-based helper over
the exit cell `cell`, with polling order `branch`; remove the id from
the map; publish `TaskDelete` (result discarded); answer with pid,
exit status (`unwrap_or_default`) and the optional exit time. -/
def taskDelete (execId : String) (inst : Option InstanceData)
    (cell : Option (Nat × Nat)) (instDelRes : Except ErrorKind Unit)
    (branch : SelectBranch) (pub : Bool) : DeleteOutcome :=
  if execId ≠ "" then
    { result := .error .InvalidArgument, data := inst, publishLog := [] }
  else
    match inst with
    | none => { result := .error .NotFound, data := none, publishLog := [] }
    | some d =>
      match d.delete instDelRes with
      | (.error e, d1) =>
        { result := .error e, data := some d1, publishLog := [] }
      | (.ok _, d1) =>
        let pid := d1.pid.getD 0
        let snapshot := withTimeoutZero (cellWait cell) branch
        { result := .ok { pid := pid,
                          exitStatus := (snapshot.map Prod.fst).getD 0,
                          exitedAt := snapshot.map Prod.snd },
          data := none,
          publishLog := [("TaskDelete", pub)] }

/-- The derived status of `task_state` (`Status` in the response). -/
inductive TaskStatus where
  | created
  | running
  | stopped
  deriving DecidableEq, Repr

/-- `StateResponse`, reduced to the fields the claims read. -/
structure StateResponse where
  pid : Nat
  exitStatus : Nat
  exitedAt : Option Nat
  status : TaskStatus
  deriving DecidableEq, Repr

/-- `Local::task_state` (`local.rs` lines 267–296).  Reject a non-empty
`exec_id`; look the id up; read the pid once-cell; obtain the exit
snapshot with `i.wait().with_timeout(Duration::ZERO)` over the exit
cell `cell` with polling order `branch`; derive the status — no pid
yet: Created; pid but no snapshot: Running; otherwise Stopped. -/
def taskState (execId : String) (inst : Option InstanceData)
    (cell : Option (Nat × Nat)) (branch : SelectBranch) :
    Except ErrorKind StateResponse :=
  if execId ≠ "" then .error .InvalidArgument
  else
    match inst with
    | none => .error .NotFound
    | some d =>
      let snapshot := withTimeoutZero (cellWait cell) branch
      let status : TaskStatus :=
        if d.pid.isNone then .created
        else if snapshot.isNone then .running
        else .stopped
      .ok { pid := d.pid.getD 0,
            exitStatus := (snapshot.map Prod.fst).getD 0,
            exitedAt := snapshot.map Prod.snd,
            status := status }

/-- `Task::connect` for `Local` (`local.rs` lines 391–401): look the id
up; answer with the shim process's own pid and the instance pid
(`unwrap_or_default`). -/
def taskConnect (shimPid : Nat) (inst : Option InstanceData) :
    Except ErrorKind (Nat × Nat) :=
  match inst with
  | none => .error .NotFound
  | some d => .ok (shimPid, d.pid.getD 0)

/-! Theorems. -/

/-- A full cell absorbs any further sequence of `set` calls. -/
lemma runSets_full {T : Type} (u : T) (vs : List T) : runSets (some u) vs = some u := by
  induction vs with
  | nil => rfl
  | cons x xs ih => simpa [runSets, cellSet] using ih

/-- Claim C1: every sequence of task operations accepted by an
`InstanceData` follows the task-state DAG `Created → Starting →
Running → Exited`, with `Deleting` legal only from `Created` or
`Exited`; any operation that would perform an illegal transition
(e.g. start after `Exited`, or delete while `Running`) fails with an
error of kind `FailedPrecondition` and leaves the state unchanged.
Conjuncts: every accepted `TaskState` event moves along a DAG edge;
every rejected event reports `FailedPrecondition`; each guarded
`InstanceData` method, on guard failure, returns the
`FailedPrecondition` error and leaves the data untouched; and the two
examples named by the claim — start after `Exited`, delete while
`Running` — are rejected. -/
theorem C1_instance_data_state_dag (s : TaskState) (e : TaskEvent)
    (d : InstanceData) (rs : Except ErrorKind Nat) (ru : Except ErrorKind Unit) :
    (∀ s1, s.step e = Except.ok s1 → dagEdge s s1 = true)
    ∧ (∀ k, s.step e = Except.error k → k = ErrorKind.FailedPrecondition)
    ∧ (∀ k, d.state.start = Except.error k →
        (d.start rs).1 = Except.error k ∧ k = ErrorKind.FailedPrecondition
          ∧ (d.start rs).2 = d)
    ∧ (∀ k, d.state.kill = Except.error k →
        (d.kill ru).1 = Except.error k ∧ k = ErrorKind.FailedPrecondition
          ∧ (d.kill ru).2 = d)
    ∧ (∀ k, d.state.delete = Except.error k →
        (d.delete ru).1 = Except.error k ∧ k = ErrorKind.FailedPrecondition
          ∧ (d.delete ru).2 = d)
    ∧ (d.state = TaskState.Exited →
        (d.start rs).1 = Except.error ErrorKind.FailedPrecondition ∧ (d.start rs).2 = d)
    ∧ (d.state = TaskState.Running →
        (d.delete ru).1 = Except.error ErrorKind.FailedPrecondition ∧ (d.delete ru).2 = d) := by
  obtain ⟨ds, dp⟩ := d
  refine ⟨?_, ?_, ?_, ?_, ?_, ?_, ?_⟩ <;>
    cases s <;> cases e <;> cases ds <;>
      simp [TaskState.step, TaskState.start, TaskState.started, TaskState.kill,
            TaskState.stop, TaskState.delete, dagEdge, InstanceData.start,
            InstanceData.kill, InstanceData.delete]

/-- Witness for C1: starting an `Exited` task is rejected with
`FailedPrecondition`, and deleting a `Running` task leaves the data
unchanged. -/
theorem C1_witness :
    ((InstanceData.mk TaskState.Exited none).start (Except.ok 7)).1
        = Except.error ErrorKind.FailedPrecondition
    ∧ ((InstanceData.mk TaskState.Running (some 3)).delete (Except.ok ())).2
        = InstanceData.mk TaskState.Running (some 3) := by
  have h := C1_instance_data_state_dag TaskState.Exited TaskEvent.start
      (InstanceData.mk TaskState.Exited none) (Except.ok 7) (Except.ok ())
  have h2 := C1_instance_data_state_dag TaskState.Running TaskEvent.delete
      (InstanceData.mk TaskState.Running (some 3)) (Except.ok 7) (Except.ok ())
  exact ⟨(h.2.2.2.2.2.1 rfl).1, (h2.2.2.2.2.2.2 rfl).2⟩

/-- Claim C2: for every `WaitableCell`, the first `set(v)` returns
`Ok(())` and wakes all waiters, every subsequent `set(w)` returns
`Err(w)` leaving the stored value unchanged, every `wait()` caller —
before or after the successful set — resolves to the first value, and
`try_wait()` after the set returns the identical tuple on every call.
The waking is embedded by `cellWait` reading the cell state: a waiter
suspended before the set resolves on the state the set produced, which
`runSets` shows is stable under all later sets. -/
theorem C2_waitable_cell_set_once {T : Type} (v u w : T) (vs : List T) :
    cellSet (none : Option T) v = (some v, Except.ok ())
    ∧ cellSet (some u) w = (some u, Except.error w)
    ∧ runSets (some u) vs = some u
    ∧ runSets (none : Option T) (v :: vs) = some v
    ∧ cellWait (runSets (none : Option T) (v :: vs)) = some v
    ∧ cellTryWait (runSets (none : Option T) (v :: vs)) = some v := by
  have hfirst : runSets (none : Option T) (v :: vs) = some v := by
    simpa [runSets, cellSet] using runSets_full v vs
  exact ⟨rfl, rfl, runSets_full u vs, hfirst, by simpa [cellWait] using hfirst,
         by simpa [cellTryWait] using hfirst⟩

/-- Counterexample to claim C3 as stated: on the successful start path
the pid once-cell is written while the task state is still `Starting` —
`self.pid.set(pid)` executes before `s.started()` — so the pid is not
set "only after the state has entered `Running`". -/
theorem C3_counterexample_pid_set_before_running :
    InstanceData.stateWhenPidSet InstanceData.new (Except.ok 42) = some TaskState.Starting
    ∧ InstanceData.stateWhenPidSet InstanceData.new (Except.ok 42)
        ≠ some TaskState.Running := by
  decide

/-- Claim C3 (amended): `InstanceData::start` performs the
`Created → Starting` guard transition, then calls the underlying
`Instance::start`; on `Ok(pid)` it sets the pid — at most once, under
the state lock, immediately *before* (not after) the state enters
`Running` — and transitions the state to `Running`; on `Err` it
transitions the state to `Exited`; the value returned to the caller is
the `Instance::start` result unchanged. -/
theorem C3_start_transitions (d : InstanceData) (r : Except ErrorKind Nat)
    (h : d.state = TaskState.Created) :
    (d.start r).1 = r
    ∧ (∀ pid, r = Except.ok pid →
        (d.start r).2 = { state := TaskState.Running, pid := onceSet d.pid pid }
        ∧ d.stateWhenPidSet r = some TaskState.Starting)
    ∧ (∀ e, r = Except.error e →
        (d.start r).2 = { state := TaskState.Exited, pid := d.pid })
    ∧ (∀ p q, d.pid = some q → onceSet d.pid p = some q) := by
  obtain ⟨ds, dp⟩ := d
  simp only at h
  subst h
  cases r <;>
    simp [InstanceData.start, InstanceData.stateWhenPidSet, TaskState.start,
          TaskState.started, TaskState.stop, forceEvent, onceSet] <;>
    rintro p q rfl <;> rfl

/-- Witness for C3: a fresh instance started with the wrapped instance
answering `Ok(42)` returns `Ok(42)`, ends `Running` with pid `42`. -/
theorem C3_witness :
    (InstanceData.new.start (Except.ok 42)).1 = Except.ok 42
    ∧ (InstanceData.new.start (Except.ok 42)).2
        = { state := TaskState.Running, pid := some 42 } := by
  have h := C3_start_transitions InstanceData.new (Except.ok 42) rfl
  exact ⟨h.1, by simpa [InstanceData.new, onceSet] using (h.2.1 42 rfl).1⟩

/-- Claim C4: after `Instance::start`, the exit-code cell is set
exactly once — to `n` when the process wait decodes `Exited(_, n)`
(cast to `u32`), to the signal number when `Signaled(_, sig, _)`, and
to `137` in every other case (unexpected wait result, wait error, or
any early-exit path via the pre-installed `(137, now)` guard default,
a no-op when the cell is already set) — so `wait()` never hangs.
Starting from the empty cell `Instance::new` creates: the cell is
always set afterwards; on the successful path it holds the decoded
status; the decoding matches the claim arm by arm; on a failed start
the guard stores `(137, tGuard)`; a second `set` on a full cell
rejects the new value; and the `u32` cast is the identity on the
in-range statuses the claim speaks about. -/
theorem C4_exit_code_cell (pre : Except ErrorKind Nat)
    (waitRes : Except String WaitStatus) (tE tG : Nat) :
    ((instanceStartCell none pre waitRes tE tG).2.isSome = true)
    ∧ (∀ pid, pre = Except.ok pid →
        (instanceStartCell none pre waitRes tE tG).2
          = some (i32ToU32 (decodeWaitStatus waitRes), tE))
    ∧ (∀ p n, waitRes = Except.ok (WaitStatus.exited p n) → decodeWaitStatus waitRes = n)
    ∧ (∀ p sg c, waitRes = Except.ok (WaitStatus.signaled p sg c) →
        decodeWaitStatus waitRes = sg)
    ∧ (∀ p sg, waitRes = Except.ok (WaitStatus.stopped p sg) → decodeWaitStatus waitRes = 137)
    ∧ (waitRes = Except.ok WaitStatus.stillAlive → decodeWaitStatus waitRes = 137)
    ∧ (∀ msg, waitRes = Except.error msg → decodeWaitStatus waitRes = 137)
    ∧ (∀ e, pre = Except.error e →
        (instanceStartCell none pre waitRes tE tG).2 = some (137, tG))
    ∧ (∀ x : Nat × Nat, ∀ y, cellSet (some x) y = (some x, Except.error y))
    ∧ (∀ n : Nat, n < 2 ^ 32 → i32ToU32 (n : Int) = n) := by
  refine ⟨?_, ?_, ?_, ?_, ?_, ?_, ?_, ?_, ?_, ?_⟩
  · cases pre <;> simp [instanceStartCell, cellSet]
  · intro pid h; subst h; simp [instanceStartCell, cellSet]
  · rintro p n rfl; rfl
  · rintro p sg c rfl; rfl
  · rintro p sg rfl; rfl
  · rintro rfl; rfl
  · rintro msg rfl; rfl
  · intro e h; subst h; simp [instanceStartCell, cellSet]
  · intro x y; rfl
  · intro n h; simp only [i32ToU32]; omega

/-- Witness for C4: a process that exits with status `42` at instant
`5` leaves the exit-code cell holding `(42, 5)`. -/
theorem C4_witness :
    (instanceStartCell none (Except.ok 10)
        (Except.ok (WaitStatus.exited 10 42)) 5 6).2 = some (42, 5) := by
  have h := (C4_exit_code_cell (Except.ok 10)
      (Except.ok (WaitStatus.exited 10 42)) 5 6).2.1 10 rfl
  simpa [decodeWaitStatus, i32ToU32] using h

/-- Counterexample to claim C5 as stated: the delete and state RPCs do
not obtain their exit snapshot through `WaitableCell::wait_timeout`;
they call the select-based `WithTimeout::with_timeout` of `utils.rs`,
which with a zero duration races an already-elapsed `sleep` against
the wait future.  When `tokio::select!` polls the sleep branch first,
it returns `None` although the cell holds a value — here the state RPC
then reports `Running` with no exit tuple while the exit cell holds
`(42, 7)` and the cell's own `try_wait` sees it. -/
theorem C5_counterexample_select_misses_value :
    withTimeoutZero (cellWait (some ((42 : Nat), (7 : Nat)))) SelectBranch.sleepFirst = none
    ∧ cellTryWait (some ((42 : Nat), (7 : Nat))) = some (42, 7)
    ∧ taskState "" (some (InstanceData.mk TaskState.Running (some 10)))
        (some (42, 7)) SelectBranch.sleepFirst
        = Except.ok { pid := 10, exitStatus := 0, exitedAt := none,
                      status := TaskStatus.running } := by
  refine ⟨rfl, rfl, ?_⟩
  simp [taskState, withTimeoutZero, cellWait]

/-- Claim C5 (amended): `WaitableCell::wait_timeout` with a zero
duration collapses to the non-blocking `try_wait` — `Some` of the
stored tuple when the cell is set, `None` when it is empty, never
suspending.  The delete and state RPCs instead use the select-based
`with_timeout` helper of `utils.rs`: with a zero duration it yields
the `try_wait` answer only when the select polls the wait future
before the already-elapsed sleep; when the sleep branch is polled
first it yields `None` even though a value is present. -/
theorem C5_zero_timeout_collapses {T : Type} (c : Option T) (arrival : Option T) (v : T) :
    cellWaitTimeout c 0 arrival = cellTryWait c
    ∧ cellWaitTimeout (some v) 0 arrival = some v
    ∧ cellWaitTimeout (none : Option T) 0 arrival = none
    ∧ withTimeoutZero (cellWait c) SelectBranch.futureFirst = cellTryWait c
    ∧ withTimeoutZero (cellWait c) SelectBranch.sleepFirst = none := by
  exact ⟨rfl, rfl, rfl, rfl, rfl⟩

/-- Counterexample to claim C6 as stated: on a fully successful create,
the id is inserted into the map and `TaskCreate` is published *before*
the prestart hooks run, not after — the trace places `insertMap` and
`publishTaskCreate` ahead of `runPrestartHooks`. -/
theorem C6_counterexample_hooks_run_last :
    let out := taskCreate 1000 false
      { id := "t1", bundle := "/b", checkpoint := "", parentCheckpoint := "",
        terminal := false, stdin := "", stdout := "", stderr := "" }
      { specLoad := .ok (), canonicalize := .ok (), rootSet := true,
        instanceNew := .ok (), publishOutcome := true, hooks := .ok () }
    ¬ out.trace.indexOf CreateStep.runPrestartHooks
        < out.trace.indexOf CreateStep.insertMap
    ∧ out.trace.indexOf CreateStep.insertMap
        < out.trace.indexOf CreateStep.runPrestartHooks
    ∧ out.trace.indexOf CreateStep.publishTaskCreate
        < out.trace.indexOf CreateStep.runPrestartHooks := by
  decide

/-- Claim C6 (amended): the create RPC performs its steps in the order:
load and canonicalise the OCI spec, create the rootfs directory, mount
the rootfs (best-effort), initialise the `InstanceData`, insert the
entry into the id→instance map, publish `TaskCreate`, and only then
run the OCI prestart hooks; in particular the id is already visible in
the map and `TaskCreate` is already published when the hooks run. -/
theorem C6_create_step_order (shimPid : Nat) (req : CreateTaskRequest) (env : CreateEnv)
    (hc : req.checkpoint = "") (hp : req.parentCheckpoint = "")
    (ht : req.terminal = false) (hs : env.specLoad = Except.ok ())
    (hcan : env.canonicalize = Except.ok ()) (hr : env.rootSet = true)
    (hi : env.instanceNew = Except.ok ()) :
    (taskCreate shimPid false req env).trace
      = [CreateStep.loadSpec, CreateStep.canonicalizeRootfs, CreateStep.mkdirRootfs,
         CreateStep.mountRootfs, CreateStep.initInstance, CreateStep.insertMap,
         CreateStep.publishTaskCreate, CreateStep.runPrestartHooks] := by
  obtain ⟨sl, cz, rt, inew, po, hk⟩ := env
  simp only at hs hcan hr hi
  subst hs hcan hr hi
  cases hk <;> simp [taskCreate, hc, hp, ht]

/-- Witness for C6: the fully successful create of
`C6_counterexample_hooks_run_last` executes exactly the amended step
order. -/
theorem C6_witness :
    (taskCreate 1000 false
      { id := "t1", bundle := "/b", checkpoint := "", parentCheckpoint := "",
        terminal := false, stdin := "", stdout := "", stderr := "" }
      { specLoad := .ok (), canonicalize := .ok (), rootSet := true,
        instanceNew := .ok (), publishOutcome := true, hooks := .ok () }).trace
      = [CreateStep.loadSpec, CreateStep.canonicalizeRootfs, CreateStep.mkdirRootfs,
         CreateStep.mountRootfs, CreateStep.initInstance, CreateStep.insertMap,
         CreateStep.publishTaskCreate, CreateStep.runPrestartHooks] :=
  C6_create_step_order 1000
    { id := "t1", bundle := "/b", checkpoint := "", parentCheckpoint := "",
      terminal := false, stdin := "", stdout := "", stderr := "" }
    { specLoad := .ok (), canonicalize := .ok (), rootSet := true,
      instanceNew := .ok (), publishOutcome := true, hooks := .ok () }
    rfl rfl rfl rfl rfl rfl rfl

/-- Layers produced by the reading loop come from the descriptors it
was given, each paired by `read_original_layer` with its own
descriptor. -/
lemma readLayers_mem (readContent : String → Except String (List Nat)) :
    ∀ (cs : List Descriptor) (ls : List Layer),
      readLayers readContent cs = Except.ok ls →
      ∀ l ∈ ls, ∃ c ∈ cs, readOriginalLayer readContent c = Except.ok l := by
  intro cs
  induction cs with
  | nil =>
    intro ls h l hl
    simp only [readLayers] at h
    cases h
    simp at hl
  | cons c cs ih =>
    intro ls h l hl
    simp only [readLayers] at h
    cases hrc : readOriginalLayer readContent c with
    | error e => rw [hrc] at h; cases h
    | ok l0 =>
      rw [hrc] at h
      cases hrest : readLayers readContent cs with
      | error e => rw [hrest] at h; cases h
      | ok ls0 =>
        rw [hrest] at h
        cases h
        rcases List.mem_cons.mp hl with rfl | hl0
        · exact ⟨c, List.mem_cons_self c cs, hrc⟩
        · obtain ⟨c1, hc1, hc2⟩ := ih ls0 hrest l hl0
          exact ⟨c1, List.mem_cons_of_mem c hc1, hc2⟩

/-- Claim C7: `load_modules(container_id, supported_media_types)`
returns `(vec![], platform)` whenever the image config's architecture
is not `wasm`, and also whenever the architecture is `wasm` but no
manifest layer's media type is a member of `supported_media_types`;
when layers are returned, every returned layer's media type is a
member of `supported_media_types`. -/
theorem C7_load_modules (container : Except String String)
    (manifestOf : String → Except String ImageManifest)
    (configArch : String → Except String Platform)
    (readContent : String → Except String (List Nat))
    (supported : List String)
    (img : String) (man : ImageManifest) (plat : Platform)
    (hc : container = Except.ok img)
    (hm : manifestOf img = Except.ok man)
    (hp : configArch man.configDesc.digest = Except.ok plat) :
    (∀ name, plat.architecture = Arch.other name →
        loadModules container manifestOf configArch readContent supported
          = Except.ok ([], plat))
    ∧ (plat.architecture = Arch.wasm →
        (man.layers.filter fun x => isWasmLayer x.mediaType supported) = [] →
        loadModules container manifestOf configArch readContent supported
          = Except.ok ([], plat))
    ∧ (∀ layers p,
        loadModules container manifestOf configArch readContent supported
          = Except.ok (layers, p) →
        ∀ l ∈ layers, isWasmLayer l.config.mediaType supported = true) := by
  subst hc
  refine ⟨?_, ?_, ?_⟩
  · intro name hn
    simp [loadModules, hm, hp, hn]
  · intro hw hf
    simp [loadModules, hm, hp, hw, hf]
  · intro layers p hres l hl
    simp only [loadModules, hm, hp] at hres
    cases ha : plat.architecture with
    | other name => rw [ha] at hres; simp at hres; simp [hres.1] at hl
    | wasm =>
      rw [ha] at hres
      simp only at hres
      by_cases hf : (man.layers.filter fun x => isWasmLayer x.mediaType supported).isEmpty
      · rw [if_pos hf] at hres
        simp at hres
        simp [hres.1] at hl
      · rw [if_neg hf] at hres
        cases hrl : readLayers readContent
            (man.layers.filter fun x => isWasmLayer x.mediaType supported) with
        | error e => rw [hrl] at hres; cases hres
        | ok ls =>
          rw [hrl] at hres
          cases hres
          obtain ⟨c, hcmem, hcread⟩ := readLayers_mem readContent _ _ hrl l hl
          have hcw : isWasmLayer c.mediaType supported = true :=
            (List.mem_filter.mp hcmem).2
          have hconf : l.config = c := by
            cases hb : readContent c.digest with
            | error e =>
              simp only [readOriginalLayer, hb, Except.map] at hcread
              exact Except.noConfusion hcread
            | ok bytes =>
              simp only [readOriginalLayer, hb, Except.map, Except.ok.injEq] at hcread
              rw [← hcread]
          rw [hconf]
          exact hcw

/-- Witness for C7: a non-wasm image yields no layers, and a wasm image
with one supported layer yields exactly that layer, whose media type is
in the supported list. -/
theorem C7_witness :
    loadModules (Except.ok "img")
      (fun _ => Except.ok { configDesc := { mediaType := "cfg", digest := "d0" },
                            layers := [{ mediaType := "mt.wasm", digest := "d1" },
                                       { mediaType := "mt.other", digest := "d2" }] })
      (fun _ => Except.ok { architecture := Arch.other "amd64" })
      (fun _ => Except.ok [0, 1]) ["mt.wasm"]
      = Except.ok ([], { architecture := Arch.other "amd64" })
    ∧ isWasmLayer "mt.wasm" ["mt.wasm"] = true := by
  constructor
  · exact (C7_load_modules (Except.ok "img") _ _ _ ["mt.wasm"] "img"
      { configDesc := { mediaType := "cfg", digest := "d0" },
        layers := [{ mediaType := "mt.wasm", digest := "d1" },
                   { mediaType := "mt.other", digest := "d2" }] }
      { architecture := Arch.other "amd64" } rfl rfl rfl).1 "amd64" rfl
  · decide

/-- Counterexample to claim C8 as stated: an OCI-Wasm-layer entrypoint
does not force the decision to Wasm — `Executor::inner` still consults
the engine's `can_handle`, and when that rejects, the decision is
`CantHandle`: `validate` rejects the spec and `exec` returns a
`CantHandle` error instead of dispatching to `run_wasi`. -/
theorem C8_counterexample_can_handle_reject :
    innerExecutor { source := EntrypointSource.oci, arg0 := none,
                    pathCandidates := [] } false ≠ InnerExecutor.Wasm
    ∧ executorExec { source := EntrypointSource.oci, arg0 := none,
                     pathCandidates := [] } false = ExecDispatch.cantHandleErr
    ∧ executorValidate { source := EntrypointSource.oci, arg0 := none,
                         pathCandidates := [] } false = false := by
  decide

/-- Claim C8 (amended): for every OCI spec whose configured entrypoint
source is an OCI Wasm layer, the ELF/shebang probe is skipped —
`is_linux_container` bails out immediately, so the memoised decision
is never Linux; the decision is Wasm, with `validate` accepting and
`exec` dispatching to the engine's `run_wasi`, exactly when the
engine's `can_handle` accepts; when `can_handle` rejects, the decision
is `CantHandle`. -/
theorem C8_oci_entrypoint_dispatch (ctx : EntryCtx) (canHandle : Bool)
    (h : ctx.source = EntrypointSource.oci) :
    isLinuxContainer ctx = Except.error "the entry point contains wasm layers"
    ∧ innerExecutor ctx canHandle ≠ InnerExecutor.Linux
    ∧ (canHandle = true →
        innerExecutor ctx canHandle = InnerExecutor.Wasm
        ∧ executorValidate ctx canHandle = true
        ∧ executorExec ctx canHandle = ExecDispatch.runWasi)
    ∧ (canHandle = false →
        innerExecutor ctx canHandle = InnerExecutor.CantHandle
        ∧ executorValidate ctx canHandle = false
        ∧ executorExec ctx canHandle = ExecDispatch.cantHandleErr) := by
  obtain ⟨src, a0, pcs⟩ := ctx
  simp only at h
  subst h
  cases canHandle <;>
    simp [isLinuxContainer, innerExecutor, executorValidate, executorExec, Except.isOk,
          Except.toBool]

/-- Witness for C8: an OCI-layer entrypoint with an accepting engine
dispatches to `run_wasi`. -/
theorem C8_witness :
    executorExec { source := EntrypointSource.oci, arg0 := some "app.wasm",
                   pathCandidates := [] } true = ExecDispatch.runWasi :=
  ((C8_oci_entrypoint_dispatch
    { source := EntrypointSource.oci, arg0 := some "app.wasm", pathCandidates := [] }
    true rfl).2.2.1 rfl).2.2

/-- Claim C9: for every task RPC that publishes a lifecycle event —
create, start, delete, and the background exit publisher spawned by
start — a failure while publishing is logged and never propagated: the
RPC's return value (success value or error) and its effect on the
instance map are identical whether the publish succeeds or fails.
The publish outcomes enter the embedded RPCs only through the publish
log; the result and map projections agree for any two outcomes. -/
theorem C9_publish_best_effort (shimPid : Nat) (hasInstance : Bool)
    (req : CreateTaskRequest) (env : CreateEnv) (b1 b2 : Bool)
    (execId : String) (inst : Option InstanceData) (rs : Except ErrorKind Nat)
    (ps1 ps2 pe1 pe2 : Bool) (cell : Option (Nat × Nat))
    (ru : Except ErrorKind Unit) (branch : SelectBranch) :
    ((taskCreate shimPid hasInstance req { env with publishOutcome := b1 }).result
       = (taskCreate shimPid hasInstance req { env with publishOutcome := b2 }).result)
    ∧ ((taskCreate shimPid hasInstance req { env with publishOutcome := b1 }).inserted
       = (taskCreate shimPid hasInstance req { env with publishOutcome := b2 }).inserted)
    ∧ ((taskStart execId inst rs ps1 pe1).result = (taskStart execId inst rs ps2 pe2).result)
    ∧ ((taskStart execId inst rs ps1 pe1).data = (taskStart execId inst rs ps2 pe2).data)
    ∧ ((taskDelete execId inst cell ru branch b1).result
       = (taskDelete execId inst cell ru branch b2).result)
    ∧ ((taskDelete execId inst cell ru branch b1).data
       = (taskDelete execId inst cell ru branch b2).data) := by
  obtain ⟨sl, cz, rt, inew, po, hk⟩ := env
  refine ⟨?_, ?_, ?_, ?_, ?_, ?_⟩ <;>
    · simp only [taskCreate, taskStart, taskDelete]
      repeat' split
      all_goals rfl

/-- Claim C10: a successful create RPC always returns the shim
process's own pid (`std::process::id()`) in `CreateTaskResponse.pid`,
independent of the container being created; the container process's
pid is first reported by the start RPC — the pid `Instance::start`
produced — and thereafter by state and connect, which read the pid
once-cell. -/
theorem C10_create_returns_shim_pid (shimPid : Nat) (hasInstance : Bool)
    (req : CreateTaskRequest) (env : CreateEnv) (d : InstanceData) (p : Nat)
    (ps pe : Bool) (hstate : d.state = TaskState.Created) :
    (∀ pid, (taskCreate shimPid hasInstance req env).result = Except.ok pid →
        pid = shimPid)
    ∧ ((taskStart "" (some d) (Except.ok p) ps pe).result = Except.ok p)
    ∧ (taskConnect shimPid (some d) = Except.ok (shimPid, d.pid.getD 0))
    ∧ (∀ r branch cell, taskState "" (some d) cell branch = Except.ok r →
        r.pid = d.pid.getD 0) := by
  obtain ⟨ds, dp⟩ := d
  simp only at hstate
  subst hstate
  refine ⟨?_, ?_, ?_, ?_⟩
  · obtain ⟨sl, cz, rt, inew, po, hk⟩ := env
    simp only [taskCreate]
    repeat' split
    all_goals intro pid h
    all_goals
      first
      | exact Except.noConfusion h
      | (injection h with h1; exact h1.symm)
  · simp [taskStart, InstanceData.start, TaskState.start, TaskState.started, forceEvent]
  · rfl
  · intro r branch cell h
    simp only [taskState, ne_eq, not_true_eq_false, if_false] at h
    injection h with h1
    rw [← h1]

/-- Witness for C10: with the wrapped instance answering `Ok(41)`,
start answers `41`, and connect reports the shim pid `1000` next to
the stored task pid. -/
theorem C10_witness :
    (taskStart "" (some (InstanceData.mk TaskState.Created (some 5)))
        (Except.ok 41) true false).result = Except.ok 41
    ∧ taskConnect 1000 (some (InstanceData.mk TaskState.Created (some 5)))
        = Except.ok (1000, 5) := by
  have h := C10_create_returns_shim_pid 1000 false
    { id := "t1", bundle := "/b", checkpoint := "", parentCheckpoint := "",
      terminal := false, stdin := "", stdout := "", stderr := "" }
    { specLoad := .ok (), canonicalize := .ok (), rootSet := true,
      instanceNew := .ok (), publishOutcome := true, hooks := .ok () }
    (InstanceData.mk TaskState.Created (some 5)) 41 true false rfl
  exact ⟨h.2.1, h.2.2.1⟩

end Runwasi
